import Mathlib

/-!
Shallow embedding of `cmd/build.go` from the plenti repository.

The file `cmd/build.go` is a sequential, fail-fast orchestrator: it resolves the
build directory from flags and persisted configuration, optionally stages a theme
into a temporary workspace, prepares the output directory, primes npm
dependencies, ejects scaffold files, stages assets, runs exactly one of two build
strategies (native or NodeJS), bundles with Gopack, and finally cleans up.

The collaborators it calls (`build.ThemesCopy`, `build.Client`, `os.Stat`, ...)
live outside this file's sources; their behaviour is abstracted into an
environment `Env` of oracles.  Every call the pipeline makes is recorded, in
order, as an `Event` in a trace, so that claims about which collaborators run,
with which arguments, and in which order become statements about the trace of
`Build`.

Go's `log.Fatal` terminates the process via `os.Exit`, so deferred functions
(including the `recover` guard) do not run: it is modelled as the terminal
outcome `fatalExit`.  A Go panic unwinds to the deferred guard at the top of
`Build`, which prints a diagnostic and returns normally: a panic inside a
collaborator is modelled by the `PRes.panic` result, producing the `panicked`
outcome of the inner pipeline, which the guard in `Build` turns into
`recovered` plus the printed diagnostic lines.
-/

set_option maxHeartbeats 4000000

namespace Plenti

/-- Per-theme options object (the values of `readers.SiteConfig.ThemeConfig`).
It is opaque to the pipeline: `cmd/build.go` only passes it through to
`build.ThemesCopy`.  Its Go zero value (returned by a map lookup at a missing
key) is `ThemeOptions.zero`. -/
structure ThemeOptions where
  raw : List (String × String)
deriving DecidableEq, Repr

def ThemeOptions.zero : ThemeOptions := ⟨[]⟩

/-- The fields of `readers.SiteConfig` that `cmd/build.go` reads: the persisted
build-output directory name, the selected theme name (empty = none) and the
map from theme names to their options. -/
structure SiteConfig where
  buildDir : String
  theme : String
  themeConfig : List (String × ThemeOptions)
deriving DecidableEq, Repr

/-- The Go zero value of `SiteConfig`. -/
def SiteConfig.zero : SiteConfig := { buildDir := "", theme := "", themeConfig := [] }

/-- Go map indexing `siteConfig.ThemeConfig[theme]`: the stored value when the
key is present, the zero value otherwise. -/
def themeConfigGet (m : List (String × ThemeOptions)) (k : String) : ThemeOptions :=
  match m.find? (fun p => p.fst == k) with
  | some p => p.snd
  | none => ThemeOptions.zero

/-- The four command-line flags of the `build` command (`BuildDirFlag`,
`VerboseFlag`, `BenchmarkFlag`, `NodeJSFlag`).  `VerboseFlag` and
`BenchmarkFlag` only configure logging (`build.CheckVerboseFlag`,
`build.CheckBenchmarkFlag`, `build.Benchmark`), which has no observable effect
on the pipeline state modelled here. -/
structure Flags where
  buildDirFlag : String
  verboseFlag : Bool
  benchmarkFlag : Bool
  nodeJSFlag : Bool
deriving DecidableEq, Repr

/-- `setBuildDir` from `cmd/build.go`: the persisted `siteConfig.BuildDir`,
overridden by the `--dir` flag whenever that flag is non-empty. -/
def setBuildDir (buildDirFlag : String) (siteConfig : SiteConfig) : String :=
  let buildDir := siteConfig.buildDir
  if buildDirFlag != "" then buildDirFlag else buildDir

/-- Result of calling a Go collaborator: a normal return value, or a runtime
panic carrying the panic value's message.  A panic unwinds to the deferred
`recover` guard installed at the top of `Build`. -/
inductive PRes (α : Type) where
  | ok : α → PRes α
  | panic : String → PRes α
deriving DecidableEq, Repr

/-- The environment of collaborators called by `Build`.  Each field abstracts
one external function exactly at the signature `cmd/build.go` uses; `Option
String` is a Go `error` (`none` = nil).  The `os.*` primitives are modelled as
returning errors but not panicking, matching their Go behaviour. -/
structure Env where
  /-- Result of `readers.GetSiteConfig(".")` as an `Except`: `.error` when the
  persisted configuration could not be loaded. -/
  getSiteConfigResult : Except String SiteConfig
  /-- `build.ThemesCopy(themePath, themeOptions)` returning `(tempBuildDir, err)`. -/
  themesCopy : String → ThemeOptions → PRes (String × Option String)
  /-- `build.ThemesMerge(tempBuildDir, buildDir)`. -/
  themesMerge : String → String → PRes (Option String)
  /-- `os.Stat(buildPath)`: `none` means the stat succeeded (the path exists). -/
  osStat : String → Option String
  /-- `os.RemoveAll(buildPath)`. -/
  osRemoveAll : String → Option String
  /-- `os.MkdirAll(buildPath, os.ModePerm)`. -/
  osMkdirAll : String → Option String
  /-- `build.NpmDefaults(tempBuildDir)`. -/
  npmDefaults : String → PRes (Option String)
  /-- `build.EjectTemp(tempBuildDir)` returning `(tempFiles, ejectedPath)`. -/
  ejectTemp : String → PRes (List String × String)
  /-- `build.EjectCopy(buildPath, tempBuildDir, ejectedPath)`. -/
  ejectCopy : String → String → String → PRes (Option String)
  /-- `build.AssetsCopy(buildPath, tempBuildDir)`. -/
  assetsCopy : String → String → PRes (Option String)
  /-- `build.NodeClient(buildPath)` returning `clientBuildStr`. -/
  nodeClient : String → PRes String
  /-- `build.NodeDataSource(buildPath, siteConfig)` returning
  `(staticBuildStr, allNodesStr, err)`. -/
  nodeDataSource : String → SiteConfig → PRes (String × String × Option String)
  /-- `build.NodeExec(clientBuildStr, staticBuildStr, allNodesStr)`. -/
  nodeExec : String → String → String → PRes (Option String)
  /-- `build.Client(buildPath, tempBuildDir, ejectedPath)`. -/
  client : String → String → String → PRes (Option String)
  /-- `build.DataSource(buildPath, siteConfig, tempBuildDir)`. -/
  dataSource : String → SiteConfig → String → PRes (Option String)
  /-- `build.Gopack(buildPath)` (returns nothing). -/
  gopack : String → PRes Unit
  /-- `build.ThemesClean(tempBuildDir)`. -/
  themesClean : String → PRes (Option String)
  /-- `build.EjectClean(tempFiles, ejectedPath)`. -/
  ejectClean : List String → String → PRes (Option String)

/-- Modelled from the spec: `readers.GetSiteConfig` is not among the sources
under verification.  Per the spec's ConfigReadFailure behaviour, a failed load
yields the zero-value `SiteConfig` together with the error, and a successful
load yields the loaded configuration and a nil error. -/
def getSiteConfig (r : Except String SiteConfig) : SiteConfig × Option String :=
  match r with
  | .ok c => (c, none)
  | .error e => (SiteConfig.zero, some e)

/-- One recorded collaborator invocation, carrying the arguments the pipeline
passed to it.  An event is appended to the trace at the moment of the call. -/
inductive Event where
  | themesCopy (path : String) (opts : ThemeOptions)
  | themesMerge (tempBuildDir buildDir : String)
  | stat (path : String)
  | removeAll (path : String)
  | mkdirAll (path : String)
  | npmDefaults (tempBuildDir : String)
  | ejectTemp (tempBuildDir : String)
  | ejectCopy (buildPath tempBuildDir ejectedPath : String)
  | assetsCopy (buildPath tempBuildDir : String)
  | nodeClient (buildPath : String)
  | nodeDataSource (buildPath : String)
  | nodeExec
  | client (buildPath tempBuildDir ejectedPath : String)
  | dataSource (buildPath tempBuildDir : String)
  | gopack (buildPath : String)
  | themesClean (tempBuildDir : String)
  | ejectClean (tempFiles : List String) (ejectedPath : String)
deriving DecidableEq, Repr

/-- How one run of `Build` ended.  `fatalExit` is `log.Fatal`: the process
exits immediately, skipping deferred functions (including the recover guard).
`panicked` is a Go panic propagating out of the inner pipeline; the guard in
`Build` converts it to `recovered`, a normal return to the caller. -/
inductive Outcome where
  | completed
  | fatalExit (msg : String)
  | panicked (msg : String)
  | recovered (msg : String)
deriving DecidableEq, Repr

/-- Observable result of one run: the outcome, the ordered trace of
collaborator invocations, the lines printed by the recover guard, and the final
values of the locals `theme`, `buildDir` and `tempBuildDir`. -/
structure RunResult where
  outcome : Outcome
  trace : List Event
  printed : List String
  theme : String
  buildDir : String
  tempBuildDir : String
deriving DecidableEq, Repr

/-- The mutable local state of one `Build` invocation, threaded stage to
stage: flags, environment, the parsed configuration and the locals of
`cmd/build.go`'s `Build` function, plus the trace recorded so far. -/
structure Ctx where
  flags : Flags
  env : Env
  siteConfig : SiteConfig
  buildDir : String
  buildPath : String := ""
  tempBuildDir : String := ""
  tempFiles : List String := []
  ejectedPath : String := ""
  trace : List Event := []

/-- End the run with the given outcome, packaging the observable state. -/
def Ctx.finish (c : Ctx) (o : Outcome) : RunResult :=
  { outcome := o, trace := c.trace, printed := [],
    theme := c.siteConfig.theme, buildDir := c.buildDir,
    tempBuildDir := c.tempBuildDir }

/-- `filepath.Join(".", buildDir)` at its single call site.  Go's `Join` cleans
`"./" + buildDir` to `buildDir` itself, and `Join(".", "")` is `"."`.
Path-cleaning of separators inside `buildDir` is not modelled: the pipeline
treats the joined path as an opaque token passed to collaborators. -/
def filepathJoinDot (buildDir : String) : String :=
  if buildDir == "" then "." else buildDir

/-- Modelled from the spec: `CheckErr` is declared outside `cmd/build.go`.
Per the spec, a cleanup failure is fatal ("Failure during either branch is
fatal ... a cleanup-only failure is reported as an overall build failure"): a
non-nil error ends the run as `fatalExit`, a nil error continues. -/
def CheckErr (r : Option String) (c : Ctx) (k : Ctx → RunResult) : RunResult :=
  match r with
  | some e => c.finish (.fatalExit e)
  | none => k c

/-- Lines 159-165 of `cmd/build.go`: with a theme, delete the whole temporary
theme build folder; with no theme, delete the ejectable files the user did not
manually eject.  Both calls go through `CheckErr`. -/
def stageCleanup (c : Ctx) : RunResult :=
  if c.tempBuildDir != "" then
    let c := { c with trace := c.trace ++ [Event.themesClean c.tempBuildDir] }
    match c.env.themesClean c.tempBuildDir with
    | .panic m => c.finish (.panicked m)
    | .ok r => CheckErr r c (fun c => c.finish .completed)
  else
    let c := { c with trace := c.trace ++ [Event.ejectClean c.tempFiles c.ejectedPath] }
    match c.env.ejectClean c.tempFiles c.ejectedPath with
    | .panic m => c.finish (.panicked m)
    | .ok r => CheckErr r c (fun c => c.finish .completed)

/-- Line 157: `build.Gopack(buildPath)`; it returns nothing, so the only way it
can fail is by panicking. -/
def stageGopack (c : Ctx) : RunResult :=
  let c := { c with trace := c.trace ++ [Event.gopack c.buildPath] }
  match c.env.gopack c.buildPath with
  | .panic m => c.finish (.panicked m)
  | .ok _ => stageCleanup c

/-- Lines 132-154: the strategy selection.  `NodeJSFlag` true runs the NodeJS
branch (`NodeClient`, `NodeDataSource`, `NodeExec`); false runs the native
branch (`Client`, `DataSource`).  Every returned error is `log.Fatal`. -/
def stageStrategy (c : Ctx) : RunResult :=
  if c.flags.nodeJSFlag then
    let c := { c with trace := c.trace ++ [Event.nodeClient c.buildPath] }
    match c.env.nodeClient c.buildPath with
    | .panic m => c.finish (.panicked m)
    | .ok clientBuildStr =>
      let c := { c with trace := c.trace ++ [Event.nodeDataSource c.buildPath] }
      match c.env.nodeDataSource c.buildPath c.siteConfig with
      | .panic m => c.finish (.panicked m)
      | .ok (_, _, some e) => c.finish (.fatalExit e)
      | .ok (staticBuildStr, allNodesStr, none) =>
        let c := { c with trace := c.trace ++ [Event.nodeExec] }
        match c.env.nodeExec clientBuildStr staticBuildStr allNodesStr with
        | .panic m => c.finish (.panicked m)
        | .ok (some e) => c.finish (.fatalExit e)
        | .ok none => stageGopack c
  else
    let c := { c with trace := c.trace ++ [Event.client c.buildPath c.tempBuildDir c.ejectedPath] }
    match c.env.client c.buildPath c.tempBuildDir c.ejectedPath with
    | .panic m => c.finish (.panicked m)
    | .ok (some e) => c.finish (.fatalExit e)
    | .ok none =>
      let c := { c with trace := c.trace ++ [Event.dataSource c.buildPath c.tempBuildDir] }
      match c.env.dataSource c.buildPath c.siteConfig c.tempBuildDir with
      | .panic m => c.finish (.panicked m)
      | .ok (some e) => c.finish (.fatalExit e)
      | .ok none => stageGopack c

/-- Lines 126-129: `build.AssetsCopy(buildPath, tempBuildDir)`; error is fatal. -/
def stageAssets (c : Ctx) : RunResult :=
  let c := { c with trace := c.trace ++ [Event.assetsCopy c.buildPath c.tempBuildDir] }
  match c.env.assetsCopy c.buildPath c.tempBuildDir with
  | .panic m => c.finish (.panicked m)
  | .ok (some e) => c.finish (.fatalExit e)
  | .ok none => stageStrategy c

/-- Lines 115-121: `build.EjectTemp(tempBuildDir)` (no error return) recording
`(tempFiles, ejectedPath)`, then `build.EjectCopy(buildPath, tempBuildDir,
ejectedPath)` whose error is fatal. -/
def stageEject (c : Ctx) : RunResult :=
  let c := { c with trace := c.trace ++ [Event.ejectTemp c.tempBuildDir] }
  match c.env.ejectTemp c.tempBuildDir with
  | .panic m => c.finish (.panicked m)
  | .ok (tempFiles, ejectedPath) =>
    let c := { c with tempFiles := tempFiles, ejectedPath := ejectedPath }
    let c := { c with trace := c.trace ++ [Event.ejectCopy c.buildPath c.tempBuildDir ejectedPath] }
    match c.env.ejectCopy c.buildPath c.tempBuildDir ejectedPath with
    | .panic m => c.finish (.panicked m)
    | .ok (some e) => c.finish (.fatalExit e)
    | .ok none => stageAssets c

/-- Lines 110-113: `build.NpmDefaults(tempBuildDir)`; error is fatal. -/
def stageNpm (c : Ctx) : RunResult :=
  let c := { c with trace := c.trace ++ [Event.npmDefaults c.tempBuildDir] }
  match c.env.npmDefaults c.tempBuildDir with
  | .panic m => c.finish (.panicked m)
  | .ok (some e) => c.finish (.fatalExit e)
  | .ok none => stageEject c

/-- Lines 102-108: `os.MkdirAll(buildPath, os.ModePerm)`; on error,
`log.Fatalf("Unable to create ...", buildDir, err)`. -/
def stageMkdir (c : Ctx) : RunResult :=
  let c := { c with trace := c.trace ++ [Event.mkdirAll c.buildPath] }
  match c.env.osMkdirAll c.buildPath with
  | some e =>
    c.finish (.fatalExit ("Unable to create \"" ++ c.buildDir ++ "\" build directory: " ++ e))
  | none => stageNpm c

/-- Lines 88-100: compute `buildPath := filepath.Join(".", buildDir)`; if
`os.Stat(buildPath)` returns a nil error, `os.RemoveAll(buildPath)` with a
fatal error check; on any stat error the removal is skipped.  Then `stageMkdir`. -/
def stagePrepare (c : Ctx) : RunResult :=
  let buildPath := filepathJoinDot c.buildDir
  let c := { c with buildPath := buildPath }
  let c := { c with trace := c.trace ++ [Event.stat buildPath] }
  match c.env.osStat buildPath with
  | none =>
    let c := { c with trace := c.trace ++ [Event.removeAll buildPath] }
    match c.env.osRemoveAll buildPath with
    | some e => c.finish (.fatalExit e)
    | none => stageMkdir c
  | some _ => stageMkdir c

/-- Lines 70-86: `tempBuildDir` starts empty; with a non-empty theme,
`build.ThemesCopy("themes/"+theme, siteConfig.ThemeConfig[theme])` assigns
`tempBuildDir` and a fatal error check follows, then
`build.ThemesMerge(tempBuildDir, buildDir)` with a fatal error check. -/
def stageTheme (c : Ctx) : RunResult :=
  let theme := c.siteConfig.theme
  if theme != "" then
    let themeOptions := themeConfigGet c.siteConfig.themeConfig theme
    let c := { c with trace := c.trace ++ [Event.themesCopy ("themes/" ++ theme) themeOptions] }
    match c.env.themesCopy ("themes/" ++ theme) themeOptions with
    | .panic m => c.finish (.panicked m)
    | .ok (dir, some e) => ({ c with tempBuildDir := dir }).finish (.fatalExit e)
    | .ok (dir, none) =>
      let c := { c with tempBuildDir := dir }
      let c := { c with trace := c.trace ++ [Event.themesMerge dir c.buildDir] }
      match c.env.themesMerge dir c.buildDir with
      | .panic m => c.finish (.panicked m)
      | .ok (some e) => c.finish (.fatalExit e)
      | .ok none => stagePrepare c
  else
    stagePrepare c

/-- The body of `Build` (lines 64-166), without the deferred recover guard:
read the configuration (the read error is discarded with `_`), resolve the
build directory, then run the stages in source order. -/
def buildInner (flags : Flags) (env : Env) : RunResult :=
  let siteConfig := (getSiteConfig env.getSiteConfigResult).fst
  let buildDir := setBuildDir flags.buildDirFlag siteConfig
  stageTheme { flags := flags, env := env, siteConfig := siteConfig, buildDir := buildDir }

/-- The first line printed by the recover guard (line 59). -/
def invalidProjectMsg : String :=
  "Please create a valid Plenti project or fix your app structure before trying to run this command again."

/-- `Build` from `cmd/build.go` with its deferred recover guard (lines 57-62):
a panic propagating out of the pipeline is intercepted, the diagnostic and
the panic value are printed, and control returns normally to the caller.  A
`log.Fatal` exit bypasses the guard (deferred functions do not run across
`os.Exit`). -/
def Build (flags : Flags) (env : Env) : RunResult :=
  let r := buildInner flags env
  match r.outcome with
  | .panicked m =>
    { r with outcome := .recovered m,
             printed := [invalidProjectMsg, "Error: " ++ m ++ " \n\n"] }
  | _ => r

/-- The configuration the pipeline effectively uses (the first component of
`readers.GetSiteConfig(".")`, the error being discarded). -/
def siteConfigOf (env : Env) : SiteConfig :=
  (getSiteConfig env.getSiteConfigResult).fst

def Event.isThemesClean : Event → Bool
  | .themesClean _ => true
  | _ => false

def Event.isEjectClean : Event → Bool
  | .ejectClean _ _ => true
  | _ => false

def Event.isNativeStrategy : Event → Bool
  | .client _ _ _ => true
  | .dataSource _ _ => true
  | _ => false

def Event.isNodeStrategy : Event → Bool
  | .nodeClient _ => true
  | .nodeDataSource _ => true
  | .nodeExec => true
  | _ => false

/-- The run invoked the theme-workspace deletion (`build.ThemesClean`). -/
def ranThemesClean (r : RunResult) : Bool := r.trace.any Event.isThemesClean

/-- The run invoked the scaffold-only deletion (`build.EjectClean`). -/
def ranEjectClean (r : RunResult) : Bool := r.trace.any Event.isEjectClean

/-- Modelled from the spec: `build.ThemesCopy` is not among the sources under
verification; per the spec it stages the theme into "a fresh temporary
directory", so a successful copy returns a non-empty workspace path. -/
def themesCopyFresh (env : Env) : Prop :=
  ∀ p o d, env.themesCopy p o = .ok (d, none) → d ≠ ""

def Event.isEjectTemp : Event → Bool
  | .ejectTemp _ => true
  | _ => false

def Event.isEjectCopy : Event → Bool
  | .ejectCopy _ _ _ => true
  | _ => false

def Event.isAssetsCopy : Event → Bool
  | .assetsCopy _ _ => true
  | _ => false

def Event.isGopack : Event → Bool
  | .gopack _ => true
  | _ => false

/-- Any invocation belonging to one of the two build strategies. -/
def Event.isStrategy (e : Event) : Bool := e.isNativeStrategy || e.isNodeStrategy

/-- The invocations made strictly before the first event satisfying `p`
(the whole trace when no event satisfies `p`). -/
def tracePrior (tr : List Event) (p : Event → Bool) : List Event :=
  tr.takeWhile (fun e => !(p e))

/-- The run enters workspace preparation: either no theme is configured, or
both theme staging calls of lines 75-86 return nil errors (otherwise the run
already ended by `log.Fatal` or a recovered panic). -/
def reachesPrepare (flags : Flags) (env : Env) : Prop :=
  (siteConfigOf env).theme = "" ∨
  ∃ d, env.themesCopy ("themes/" ++ (siteConfigOf env).theme)
        (themeConfigGet (siteConfigOf env).themeConfig (siteConfigOf env).theme) = .ok (d, none) ∧
      env.themesMerge d (setBuildDir flags.buildDirFlag (siteConfigOf env)) = .ok none

/-- Fixture: default flags (no overrides, native strategy). -/
def flags0 : Flags :=
  { buildDirFlag := "", verboseFlag := false, benchmarkFlag := false, nodeJSFlag := false }

/-- Fixture: flags selecting the NodeJS strategy. -/
def flagsNode : Flags := { flags0 with nodeJSFlag := true }

/-- Fixture: persisted configuration with no theme. -/
def cfg0 : SiteConfig := { buildDir := "public", theme := "", themeConfig := [] }

/-- Fixture: persisted configuration selecting theme `mytheme`. -/
def cfgTheme : SiteConfig :=
  { buildDir := "public", theme := "mytheme",
    themeConfig := [("mytheme", ⟨[("k", "v")]⟩)] }

/-- Fixture: an environment in which every collaborator succeeds. -/
def envBase : Env where
  getSiteConfigResult := .ok cfg0
  themesCopy := fun _ _ => .ok ("tmp_theme", none)
  themesMerge := fun _ _ => .ok none
  osStat := fun _ => none
  osRemoveAll := fun _ => none
  osMkdirAll := fun _ => none
  npmDefaults := fun _ => .ok none
  ejectTemp := fun _ => .ok (["ejected/plenti.js"], "ejected")
  ejectCopy := fun _ _ _ => .ok none
  assetsCopy := fun _ _ => .ok none
  nodeClient := fun _ => .ok "clientjs"
  nodeDataSource := fun _ _ => .ok ("staticjs", "allnodes", none)
  nodeExec := fun _ _ _ => .ok none
  client := fun _ _ _ => .ok none
  dataSource := fun _ _ _ => .ok none
  gopack := fun _ => .ok ()
  themesClean := fun _ => .ok none
  ejectClean := fun _ _ => .ok none

/-- Fixture: `envBase` with a theme configured. -/
def envThemeOk : Env := { envBase with getSiteConfigResult := .ok cfgTheme }

/-- Fixture: a theme is configured and `build.ThemesCopy` fails. -/
def envThemeCopyFails : Env :=
  { envBase with
    getSiteConfigResult := .ok cfgTheme,
    themesCopy := fun _ _ => .ok ("", some "copy failed") }

/-- Fixture: `build.NpmDefaults` panics. -/
def envNpmPanics : Env :=
  { envBase with npmDefaults := fun _ => .panic "boom" }

/-- Fixture: the persisted configuration cannot be loaded. -/
def envCfgFails : Env :=
  { envBase with getSiteConfigResult := .error "open plenti.json: no such file" }

/-- Fixture: `os.Stat` on the build path fails with a permission error. -/
def envStatFails : Env :=
  { envBase with osStat := fun _ => some "permission denied" }

/-- Fixture: scaffold cleanup fails after a successful no-theme build. -/
def envEjectCleanFails : Env :=
  { envBase with ejectClean := fun _ _ => .ok (some "unlink failed") }

/-- Fixture: `build.EjectCopy` fails. -/
def envEjectCopyFails : Env :=
  { envBase with ejectCopy := fun _ _ _ => .ok (some "eject copy failed") }

/-- The recover guard changes no recorded invocation: `Build` and the guarded
body have the same trace. -/
theorem Build_trace (flags : Flags) (env : Env) :
    (Build flags env).trace = (buildInner flags env).trace := by
  simp only [Build]
  split <;> rfl

/-- The recover guard preserves the resolved theme name. -/
theorem Build_theme (flags : Flags) (env : Env) :
    (Build flags env).theme = (buildInner flags env).theme := by
  simp only [Build]
  split <;> rfl

/-- The recover guard preserves the resolved build directory. -/
theorem Build_buildDir (flags : Flags) (env : Env) :
    (Build flags env).buildDir = (buildInner flags env).buildDir := by
  simp only [Build]
  split <;> rfl

/-- The recover guard preserves the final temporary workspace path. -/
theorem Build_tempBuildDir (flags : Flags) (env : Env) :
    (Build flags env).tempBuildDir = (buildInner flags env).tempBuildDir := by
  simp only [Build]
  split <;> rfl

/-- A run of `Build` completes exactly when the guarded body completes. -/
theorem Build_completed_iff (flags : Flags) (env : Env) :
    ((Build flags env).outcome = .completed ↔ (buildInner flags env).outcome = .completed) := by
  simp only [Build]
  split <;> simp_all

/-- A run of `Build` ends in `log.Fatal` exactly when the guarded body does
(`os.Exit` bypasses the deferred guard). -/
theorem Build_fatal_iff (flags : Flags) (env : Env) (e : String) :
    ((Build flags env).outcome = .fatalExit e ↔ (buildInner flags env).outcome = .fatalExit e) := by
  simp only [Build]
  split <;> simp_all

/-- A trace extended twice is an extension of the original trace. -/
theorem append_extend {tr0 a b : List Event} : ∃ u, (tr0 ++ a) ++ b = tr0 ++ u :=
  ⟨a ++ b, by rw [List.append_assoc]⟩

/-- A trace extended three times is an extension of the original trace. -/
theorem append_extend3 {tr0 a b d : List Event} :
    ∃ u, ((tr0 ++ a) ++ b) ++ d = tr0 ++ u :=
  ⟨a ++ (b ++ d), by simp⟩

/-- Composition step for trace-extension facts: a stage that extends the trace
of an intermediate context extends any trace that context itself extends. -/
theorem traceAppend_trans {r : RunResult} {c : Ctx} {tr0 d : List Event}
    (h1 : ∃ t, r.trace = c.trace ++ t) (h2 : c.trace = tr0 ++ d) :
    ∃ u, r.trace = tr0 ++ u := by
  obtain ⟨t, ht⟩ := h1
  exact ⟨d ++ t, by rw [ht, h2, List.append_assoc]⟩

/-- As `traceAppend_trans`, for a context whose trace was extended twice. -/
theorem traceAppend_trans2 {r : RunResult} {c : Ctx} {tr0 a b : List Event}
    (h1 : ∃ t, r.trace = c.trace ++ t) (h2 : c.trace = (tr0 ++ a) ++ b) :
    ∃ u, r.trace = tr0 ++ u := by
  obtain ⟨t, ht⟩ := h1
  exact ⟨a ++ (b ++ t), by rw [ht, h2]; simp⟩

/-- As `traceAppend_trans`, for a context whose trace was extended three
times. -/
theorem traceAppend_trans3 {r : RunResult} {c : Ctx} {tr0 a b d : List Event}
    (h1 : ∃ t, r.trace = c.trace ++ t) (h2 : c.trace = ((tr0 ++ a) ++ b) ++ d) :
    ∃ u, r.trace = tr0 ++ u := by
  obtain ⟨t, ht⟩ := h1
  exact ⟨a ++ (b ++ (d ++ t)), by rw [ht, h2]; simp⟩

/-- An invocation recorded before a stage runs is still in the trace after it. -/
theorem mem_of_traceAppend {r : RunResult} {c : Ctx} {e : Event}
    (h1 : ∃ t, r.trace = c.trace ++ t) (h2 : e ∈ c.trace) : e ∈ r.trace := by
  obtain ⟨t, ht⟩ := h1
  rw [ht]
  exact List.mem_append_left _ h2

/-- The cleanup stage only appends invocations to the trace. -/
theorem stageCleanup_trace (c : Ctx) : ∃ t, (stageCleanup c).trace = c.trace ++ t := by
  simp only [stageCleanup, CheckErr, Ctx.finish]
  repeat' split
  all_goals exact ⟨_, rfl⟩

/-- The Gopack stage only appends invocations to the trace. -/
theorem stageGopack_trace (c : Ctx) : ∃ t, (stageGopack c).trace = c.trace ++ t := by
  simp only [stageGopack, Ctx.finish]
  repeat' split
  all_goals first
  | exact ⟨_, rfl⟩
  | exact append_extend
  | exact append_extend3
  | exact traceAppend_trans (stageCleanup_trace _) rfl
  | exact traceAppend_trans2 (stageCleanup_trace _) rfl
  | exact traceAppend_trans3 (stageCleanup_trace _) rfl

/-- The strategy stage only appends invocations to the trace. -/
theorem stageStrategy_trace (c : Ctx) : ∃ t, (stageStrategy c).trace = c.trace ++ t := by
  simp only [stageStrategy, Ctx.finish]
  repeat' split
  all_goals first
  | exact ⟨_, rfl⟩
  | exact append_extend
  | exact append_extend3
  | exact traceAppend_trans (stageGopack_trace _) rfl
  | exact traceAppend_trans2 (stageGopack_trace _) rfl
  | exact traceAppend_trans3 (stageGopack_trace _) rfl

/-- The asset-staging stage only appends invocations to the trace. -/
theorem stageAssets_trace (c : Ctx) : ∃ t, (stageAssets c).trace = c.trace ++ t := by
  simp only [stageAssets, Ctx.finish]
  repeat' split
  all_goals first
  | exact ⟨_, rfl⟩
  | exact append_extend
  | exact append_extend3
  | exact traceAppend_trans (stageStrategy_trace _) rfl
  | exact traceAppend_trans2 (stageStrategy_trace _) rfl
  | exact traceAppend_trans3 (stageStrategy_trace _) rfl

/-- The ejection stage only appends invocations to the trace. -/
theorem stageEject_trace (c : Ctx) : ∃ t, (stageEject c).trace = c.trace ++ t := by
  simp only [stageEject, Ctx.finish]
  repeat' split
  all_goals first
  | exact ⟨_, rfl⟩
  | exact append_extend
  | exact append_extend3
  | exact traceAppend_trans (stageAssets_trace _) rfl
  | exact traceAppend_trans2 (stageAssets_trace _) rfl
  | exact traceAppend_trans3 (stageAssets_trace _) rfl

/-- The npm-priming stage only appends invocations to the trace. -/
theorem stageNpm_trace (c : Ctx) : ∃ t, (stageNpm c).trace = c.trace ++ t := by
  simp only [stageNpm, Ctx.finish]
  repeat' split
  all_goals first
  | exact ⟨_, rfl⟩
  | exact append_extend
  | exact append_extend3
  | exact traceAppend_trans (stageEject_trace _) rfl
  | exact traceAppend_trans2 (stageEject_trace _) rfl
  | exact traceAppend_trans3 (stageEject_trace _) rfl

/-- The directory-creation step only appends invocations to the trace. -/
theorem stageMkdir_trace (c : Ctx) : ∃ t, (stageMkdir c).trace = c.trace ++ t := by
  simp only [stageMkdir, Ctx.finish]
  repeat' split
  all_goals first
  | exact ⟨_, rfl⟩
  | exact append_extend
  | exact append_extend3
  | exact traceAppend_trans (stageNpm_trace _) rfl
  | exact traceAppend_trans2 (stageNpm_trace _) rfl
  | exact traceAppend_trans3 (stageNpm_trace _) rfl

/-- The workspace-preparation stage only appends invocations to the trace. -/
theorem stagePrepare_trace (c : Ctx) : ∃ t, (stagePrepare c).trace = c.trace ++ t := by
  simp only [stagePrepare, Ctx.finish]
  repeat' split
  all_goals first
  | exact ⟨_, rfl⟩
  | exact append_extend
  | exact append_extend3
  | exact traceAppend_trans (stageMkdir_trace _) rfl
  | exact traceAppend_trans2 (stageMkdir_trace _) rfl
  | exact traceAppend_trans3 (stageMkdir_trace _) rfl

/-- The cleanup stage does not change the theme, build directory or workspace
path it reports. -/
theorem stageCleanup_fields (c : Ctx) :
    (stageCleanup c).theme = c.siteConfig.theme ∧
    (stageCleanup c).buildDir = c.buildDir ∧
    (stageCleanup c).tempBuildDir = c.tempBuildDir := by
  simp only [stageCleanup, CheckErr, Ctx.finish]
  repeat' split
  all_goals exact ⟨rfl, rfl, rfl⟩

/-- The Gopack stage does not change the reported theme, build directory or
workspace path. -/
theorem stageGopack_fields (c : Ctx) :
    (stageGopack c).theme = c.siteConfig.theme ∧
    (stageGopack c).buildDir = c.buildDir ∧
    (stageGopack c).tempBuildDir = c.tempBuildDir := by
  simp only [stageGopack, Ctx.finish]
  split
  · exact ⟨rfl, rfl, rfl⟩
  · exact stageCleanup_fields _

/-- The strategy stage does not change the reported theme, build directory or
workspace path. -/
theorem stageStrategy_fields (c : Ctx) :
    (stageStrategy c).theme = c.siteConfig.theme ∧
    (stageStrategy c).buildDir = c.buildDir ∧
    (stageStrategy c).tempBuildDir = c.tempBuildDir := by
  simp only [stageStrategy, Ctx.finish]
  repeat' split
  all_goals first
  | exact ⟨rfl, rfl, rfl⟩
  | exact stageGopack_fields _

/-- The asset-staging stage does not change the reported theme, build
directory or workspace path. -/
theorem stageAssets_fields (c : Ctx) :
    (stageAssets c).theme = c.siteConfig.theme ∧
    (stageAssets c).buildDir = c.buildDir ∧
    (stageAssets c).tempBuildDir = c.tempBuildDir := by
  simp only [stageAssets, Ctx.finish]
  repeat' split
  all_goals first
  | exact ⟨rfl, rfl, rfl⟩
  | exact stageStrategy_fields _

/-- The ejection stage does not change the reported theme, build directory or
workspace path. -/
theorem stageEject_fields (c : Ctx) :
    (stageEject c).theme = c.siteConfig.theme ∧
    (stageEject c).buildDir = c.buildDir ∧
    (stageEject c).tempBuildDir = c.tempBuildDir := by
  simp only [stageEject, Ctx.finish]
  repeat' split
  all_goals first
  | exact ⟨rfl, rfl, rfl⟩
  | exact stageAssets_fields _

/-- The npm-priming stage does not change the reported theme, build directory
or workspace path. -/
theorem stageNpm_fields (c : Ctx) :
    (stageNpm c).theme = c.siteConfig.theme ∧
    (stageNpm c).buildDir = c.buildDir ∧
    (stageNpm c).tempBuildDir = c.tempBuildDir := by
  simp only [stageNpm, Ctx.finish]
  repeat' split
  all_goals first
  | exact ⟨rfl, rfl, rfl⟩
  | exact stageEject_fields _

/-- The directory-creation step does not change the reported theme, build
directory or workspace path. -/
theorem stageMkdir_fields (c : Ctx) :
    (stageMkdir c).theme = c.siteConfig.theme ∧
    (stageMkdir c).buildDir = c.buildDir ∧
    (stageMkdir c).tempBuildDir = c.tempBuildDir := by
  simp only [stageMkdir, Ctx.finish]
  repeat' split
  all_goals first
  | exact ⟨rfl, rfl, rfl⟩
  | exact stageNpm_fields _

/-- The workspace-preparation stage does not change the reported theme, build
directory or workspace path. -/
theorem stagePrepare_fields (c : Ctx) :
    (stagePrepare c).theme = c.siteConfig.theme ∧
    (stagePrepare c).buildDir = c.buildDir ∧
    (stagePrepare c).tempBuildDir = c.tempBuildDir := by
  simp only [stagePrepare, Ctx.finish]
  repeat' split
  all_goals first
  | exact ⟨rfl, rfl, rfl⟩
  | exact stageMkdir_fields _

/-- The theme stage does not change the reported theme name or build
directory. -/
theorem stageTheme_fields (c : Ctx) :
    (stageTheme c).theme = c.siteConfig.theme ∧
    (stageTheme c).buildDir = c.buildDir := by
  simp only [stageTheme, Ctx.finish]
  repeat' split
  all_goals first
  | exact ⟨rfl, rfl⟩
  | exact ⟨(stagePrepare_fields _).1, (stagePrepare_fields _).2.1⟩

/-- The reported theme and build directory of any run are the configured
theme and the flag-resolved build directory. -/
theorem buildInner_fields (flags : Flags) (env : Env) :
    (buildInner flags env).theme = (siteConfigOf env).theme ∧
    (buildInner flags env).buildDir = setBuildDir flags.buildDirFlag (siteConfigOf env) := by
  simp only [buildInner, siteConfigOf]
  exact stageTheme_fields _

/-- The workspace-preparation stage always records the `os.Stat` probe of the
joined build path. -/
theorem stagePrepare_stat_mem (c : Ctx) :
    Event.stat (filepathJoinDot c.buildDir) ∈ (stagePrepare c).trace := by
  simp only [stagePrepare, Ctx.finish]
  repeat' split
  all_goals first
  | exact mem_of_traceAppend (stageMkdir_trace _) (by simp)
  | simp

/-- C2: per run, strategy selection is decided by `NodeJSFlag` alone: with the
flag set, no native-strategy collaborator (`Client`, `DataSource`) is ever
invoked; with it unset, no NodeJS collaborator (`NodeClient`, `NodeDataSource`,
`NodeExec`) is ever invoked; and a run that completes did execute the selected
strategy, so exactly one of the two strategies executes. -/
theorem c2_strategy_exclusive (flags : Flags) (env : Env) :
    (flags.nodeJSFlag = true →
      (Build flags env).trace.any Event.isNativeStrategy = false) ∧
    (flags.nodeJSFlag = false →
      (Build flags env).trace.any Event.isNodeStrategy = false) ∧
    ((Build flags env).outcome = .completed →
      (flags.nodeJSFlag = true → (Build flags env).trace.any Event.isNodeStrategy = true) ∧
      (flags.nodeJSFlag = false → (Build flags env).trace.any Event.isNativeStrategy = true)) := by
  rw [Build_trace, Build_completed_iff]
  simp only [buildInner, stageTheme, stagePrepare, stageMkdir, stageNpm, stageEject,
    stageAssets, stageStrategy, stageGopack, stageCleanup, CheckErr, Ctx.finish]
  repeat' split
  all_goals simp_all [Event.isNativeStrategy, Event.isNodeStrategy]

/-- Witness for `c2_strategy_exclusive` at concrete inputs: with the NodeJS
flag no native collaborator runs, without it no NodeJS collaborator runs, and
a completed native run did invoke the native strategy. -/
theorem c2_strategy_exclusive_witness :
    (Build flagsNode envBase).trace.any Event.isNativeStrategy = false ∧
    (Build flags0 envBase).trace.any Event.isNodeStrategy = false ∧
    (Build flags0 envBase).outcome = .completed ∧
    (Build flags0 envBase).trace.any Event.isNativeStrategy = true :=
  ⟨(c2_strategy_exclusive flagsNode envBase).1 rfl,
   (c2_strategy_exclusive flags0 envBase).2.1 rfl,
   by decide,
   ((c2_strategy_exclusive flags0 envBase).2.2 (by decide)).2 rfl⟩

/-- C3: `setBuildDir` resolves the effective build directory: a non-empty
`--dir` override wins, an empty override leaves the persisted
`siteConfig.BuildDir` unchanged. -/
theorem c3_build_dir_override (flag : String) (sc : SiteConfig) :
    (flag ≠ "" → setBuildDir flag sc = flag) ∧
    (flag = "" → setBuildDir flag sc = sc.buildDir) := by
  constructor <;> intro h <;> simp [setBuildDir, h]

/-- Witness for `c3_build_dir_override`: the override `"out"` beats the
persisted `"public"`, and an empty override keeps `"public"`. -/
theorem c3_build_dir_override_witness :
    setBuildDir "out" cfg0 = "out" ∧ setBuildDir "" cfg0 = "public" :=
  ⟨(c3_build_dir_override "out" cfg0).1 (by decide),
   (c3_build_dir_override "" cfg0).2 rfl⟩

/-- C8: a panic propagating out of the pipeline body is intercepted by the
deferred guard: the run ends `recovered`, the two diagnostic lines (likely
cause plus underlying detail) are printed, no further pipeline step runs (the
trace is exactly the inner trace at the moment of the panic), and the guard
returns to the caller without the fatal-exit failure signal. -/
theorem c8_panic_guard (flags : Flags) (env : Env) (m : String)
    (h : (buildInner flags env).outcome = .panicked m) :
    (Build flags env).outcome = .recovered m ∧
    (Build flags env).printed = [invalidProjectMsg, "Error: " ++ m ++ " \n\n"] ∧
    (Build flags env).trace = (buildInner flags env).trace ∧
    ∀ e, (Build flags env).outcome ≠ .fatalExit e := by
  simp [Build, h]

/-- Witness for `c8_panic_guard`: `build.NpmDefaults` panicking with "boom" is
recovered and reported. -/
theorem c8_panic_guard_witness :
    (buildInner flags0 envNpmPanics).outcome = .panicked "boom" ∧
    (Build flags0 envNpmPanics).outcome = .recovered "boom" ∧
    (Build flags0 envNpmPanics).printed =
      [invalidProjectMsg, "Error: " ++ "boom" ++ " \n\n"] :=
  ⟨by decide,
   (c8_panic_guard flags0 envNpmPanics "boom" (by decide)).1,
   (c8_panic_guard flags0 envNpmPanics "boom" (by decide)).2.1⟩

/-- C9: when loading the persisted configuration fails, the run is not
aborted: the discarded error leaves the zero-value `SiteConfig` in effect
(empty theme, empty persisted build directory), and the pipeline proceeds
past configuration into workspace preparation. -/
theorem c9_config_failure_defaults (flags : Flags) (env : Env) (e : String)
    (h : env.getSiteConfigResult = .error e) :
    siteConfigOf env = SiteConfig.zero ∧
    (Build flags env).theme = "" ∧
    (Build flags env).buildDir = setBuildDir flags.buildDirFlag SiteConfig.zero ∧
    Event.stat (filepathJoinDot (setBuildDir flags.buildDirFlag SiteConfig.zero)) ∈
      (Build flags env).trace := by
  have hcfg : siteConfigOf env = SiteConfig.zero := by
    simp [siteConfigOf, getSiteConfig, h]
  have hrun : buildInner flags env = stagePrepare
      { flags := flags, env := env, siteConfig := SiteConfig.zero,
        buildDir := setBuildDir flags.buildDirFlag SiteConfig.zero } := by
    simp only [buildInner]
    rw [show (getSiteConfig env.getSiteConfigResult).fst = SiteConfig.zero from hcfg]
    simp [stageTheme, SiteConfig.zero]
  refine ⟨hcfg, ?_, ?_, ?_⟩
  · rw [Build_theme, (buildInner_fields flags env).1, hcfg]
    rfl
  · rw [Build_buildDir, (buildInner_fields flags env).2, hcfg]
  · rw [Build_trace, hrun]
    exact stagePrepare_stat_mem _

/-- Witness for `c9_config_failure_defaults`: an unreadable `plenti.json`
leaves the zero configuration in effect and the run still reaches the
`os.Stat` of the output path. -/
theorem c9_config_failure_defaults_witness :
    envCfgFails.getSiteConfigResult = .error "open plenti.json: no such file" ∧
    siteConfigOf envCfgFails = SiteConfig.zero ∧
    (Build flags0 envCfgFails).theme = "" ∧
    Event.stat (filepathJoinDot (setBuildDir "" SiteConfig.zero)) ∈
      (Build flags0 envCfgFails).trace :=
  ⟨rfl,
   (c9_config_failure_defaults flags0 envCfgFails _ rfl).1,
   (c9_config_failure_defaults flags0 envCfgFails _ rfl).2.1,
   (c9_config_failure_defaults flags0 envCfgFails _ rfl).2.2.2⟩

/-- The cleanup stage records no workspace-preparation invocation. -/
theorem stageCleanup_prepEvents (c : Ctx) (x : String) :
    (Event.stat x ∈ (stageCleanup c).trace ↔ Event.stat x ∈ c.trace) ∧
    (Event.removeAll x ∈ (stageCleanup c).trace ↔ Event.removeAll x ∈ c.trace) ∧
    (Event.mkdirAll x ∈ (stageCleanup c).trace ↔ Event.mkdirAll x ∈ c.trace) := by
  simp only [stageCleanup, CheckErr, Ctx.finish]
  repeat' split
  all_goals simp

/-- The Gopack stage records no workspace-preparation invocation. -/
theorem stageGopack_prepEvents (c : Ctx) (x : String) :
    (Event.stat x ∈ (stageGopack c).trace ↔ Event.stat x ∈ c.trace) ∧
    (Event.removeAll x ∈ (stageGopack c).trace ↔ Event.removeAll x ∈ c.trace) ∧
    (Event.mkdirAll x ∈ (stageGopack c).trace ↔ Event.mkdirAll x ∈ c.trace) := by
  simp only [stageGopack, Ctx.finish]
  repeat' split
  all_goals simp [stageCleanup_prepEvents]

/-- The strategy stage records no workspace-preparation invocation. -/
theorem stageStrategy_prepEvents (c : Ctx) (x : String) :
    (Event.stat x ∈ (stageStrategy c).trace ↔ Event.stat x ∈ c.trace) ∧
    (Event.removeAll x ∈ (stageStrategy c).trace ↔ Event.removeAll x ∈ c.trace) ∧
    (Event.mkdirAll x ∈ (stageStrategy c).trace ↔ Event.mkdirAll x ∈ c.trace) := by
  simp only [stageStrategy, Ctx.finish]
  repeat' split
  all_goals simp [stageGopack_prepEvents]

/-- The asset-staging stage records no workspace-preparation invocation. -/
theorem stageAssets_prepEvents (c : Ctx) (x : String) :
    (Event.stat x ∈ (stageAssets c).trace ↔ Event.stat x ∈ c.trace) ∧
    (Event.removeAll x ∈ (stageAssets c).trace ↔ Event.removeAll x ∈ c.trace) ∧
    (Event.mkdirAll x ∈ (stageAssets c).trace ↔ Event.mkdirAll x ∈ c.trace) := by
  simp only [stageAssets, Ctx.finish]
  repeat' split
  all_goals simp [stageStrategy_prepEvents]

/-- The ejection stage records no workspace-preparation invocation. -/
theorem stageEject_prepEvents (c : Ctx) (x : String) :
    (Event.stat x ∈ (stageEject c).trace ↔ Event.stat x ∈ c.trace) ∧
    (Event.removeAll x ∈ (stageEject c).trace ↔ Event.removeAll x ∈ c.trace) ∧
    (Event.mkdirAll x ∈ (stageEject c).trace ↔ Event.mkdirAll x ∈ c.trace) := by
  simp only [stageEject, Ctx.finish]
  repeat' split
  all_goals simp [stageAssets_prepEvents]

/-- The npm-priming stage records no workspace-preparation invocation. -/
theorem stageNpm_prepEvents (c : Ctx) (x : String) :
    (Event.stat x ∈ (stageNpm c).trace ↔ Event.stat x ∈ c.trace) ∧
    (Event.removeAll x ∈ (stageNpm c).trace ↔ Event.removeAll x ∈ c.trace) ∧
    (Event.mkdirAll x ∈ (stageNpm c).trace ↔ Event.mkdirAll x ∈ c.trace) := by
  simp only [stageNpm, Ctx.finish]
  repeat' split
  all_goals simp [stageEject_prepEvents]

/-- C4: once the run reaches workspace preparation, the `os.Stat` probe of the
resolved output path is recorded; a successful probe is followed by the
recursive removal of the path; a removal failure is `log.Fatal` and the
creation step never runs; after a removal that was skipped (probe error) or
succeeded the path is created with `os.MkdirAll`; and a creation failure is
`log.Fatal` with the formatted message and aborts the run before dependency
priming. -/
theorem c4_workspace_preparation (flags : Flags) (env : Env) (e s d0 : String)
    (h : reachesPrepare flags env) :
    Event.stat (filepathJoinDot (setBuildDir flags.buildDirFlag (siteConfigOf env))) ∈
      (Build flags env).trace ∧
    (env.osStat (filepathJoinDot (setBuildDir flags.buildDirFlag (siteConfigOf env))) = none →
      Event.removeAll (filepathJoinDot (setBuildDir flags.buildDirFlag (siteConfigOf env))) ∈
        (Build flags env).trace ∧
      (env.osRemoveAll
          (filepathJoinDot (setBuildDir flags.buildDirFlag (siteConfigOf env))) = some e →
        (Build flags env).outcome = .fatalExit e ∧
        Event.mkdirAll (filepathJoinDot (setBuildDir flags.buildDirFlag (siteConfigOf env))) ∉
          (Build flags env).trace) ∧
      (env.osRemoveAll (filepathJoinDot (setBuildDir flags.buildDirFlag (siteConfigOf env))) = none →
        Event.mkdirAll (filepathJoinDot (setBuildDir flags.buildDirFlag (siteConfigOf env))) ∈
          (Build flags env).trace)) ∧
    (env.osStat (filepathJoinDot (setBuildDir flags.buildDirFlag (siteConfigOf env))) = some s →
      Event.mkdirAll (filepathJoinDot (setBuildDir flags.buildDirFlag (siteConfigOf env))) ∈
        (Build flags env).trace) ∧
    (env.osMkdirAll (filepathJoinDot (setBuildDir flags.buildDirFlag (siteConfigOf env))) = some e →
      (env.osStat (filepathJoinDot (setBuildDir flags.buildDirFlag (siteConfigOf env))) = none →
        env.osRemoveAll (filepathJoinDot (setBuildDir flags.buildDirFlag (siteConfigOf env))) = none) →
      (Build flags env).outcome = .fatalExit
        ("Unable to create \"" ++ setBuildDir flags.buildDirFlag (siteConfigOf env) ++
          "\" build directory: " ++ e) ∧
      Event.npmDefaults d0 ∉ (Build flags env).trace) := by
  simp only [Build_trace, Build_fatal_iff]
  rcases h with h | ⟨d, hcopy, hmerge⟩ <;>
  · simp only [siteConfigOf] at *
    simp only [buildInner, stageTheme, stagePrepare, stageMkdir, Ctx.finish]
    repeat' split
    all_goals simp_all [stageNpm_prepEvents]

/-- Witness for `c4_workspace_preparation`: with everything succeeding and
persisted directory `public`, the probe, the removal and the creation are all
recorded. -/
theorem c4_workspace_preparation_witness :
    reachesPrepare flags0 envBase ∧
    Event.stat "public" ∈ (Build flags0 envBase).trace ∧
    Event.removeAll "public" ∈ (Build flags0 envBase).trace ∧
    Event.mkdirAll "public" ∈ (Build flags0 envBase).trace :=
  ⟨Or.inl rfl,
   (c4_workspace_preparation flags0 envBase "x" "x" "x" (Or.inl rfl)).1,
   ((c4_workspace_preparation flags0 envBase "x" "x" "x" (Or.inl rfl)).2.1 rfl).1,
   ((c4_workspace_preparation flags0 envBase "x" "x" "x" (Or.inl rfl)).2.1 rfl).2.2 rfl⟩

/-- C10: the removal of a stale output directory happens only behind a
successful `os.Stat`: any recorded removal targets the resolved output path
and that path's probe returned a nil error; and whenever the probe returns any
error (for example a permission failure) while the run is at the preparation
stage, the removal is skipped and the run proceeds directly to `os.MkdirAll`. -/
theorem c10_stat_gates_removal (flags : Flags) (env : Env) (p s : String) :
    (Event.removeAll p ∈ (Build flags env).trace →
      p = filepathJoinDot (setBuildDir flags.buildDirFlag (siteConfigOf env)) ∧
      env.osStat p = none) ∧
    (env.osStat (filepathJoinDot (setBuildDir flags.buildDirFlag (siteConfigOf env))) = some s →
      reachesPrepare flags env →
      Event.removeAll (filepathJoinDot (setBuildDir flags.buildDirFlag (siteConfigOf env))) ∉
        (Build flags env).trace ∧
      Event.mkdirAll (filepathJoinDot (setBuildDir flags.buildDirFlag (siteConfigOf env))) ∈
        (Build flags env).trace) := by
  simp only [Build_trace, reachesPrepare]
  simp only [buildInner, siteConfigOf, stageTheme, stagePrepare, stageMkdir, Ctx.finish]
  repeat' split
  all_goals simp_all [stageNpm_prepEvents]

/-- Witness for `c10_stat_gates_removal`: under a permission failure of the
probe, the removal is skipped and the creation still runs. -/
theorem c10_stat_gates_removal_witness :
    envStatFails.osStat "public" = some "permission denied" ∧
    Event.removeAll "public" ∉ (Build flags0 envStatFails).trace ∧
    Event.mkdirAll "public" ∈ (Build flags0 envStatFails).trace :=
  ⟨rfl,
   ((c10_stat_gates_removal flags0 envStatFails "public" "permission denied").2 rfl
     (Or.inl rfl)).1,
   ((c10_stat_gates_removal flags0 envStatFails "public" "permission denied").2 rfl
     (Or.inl rfl)).2⟩

/-- C5: with a theme configured, the very first collaborator invocation of the
run is `build.ThemesCopy("themes/" + theme, siteConfig.ThemeConfig[theme])`, so
the copy precedes any `build.ThemesMerge` invocation; and when the copy
returns an error, the run ends by `log.Fatal` with that error and the merge is
never invoked. -/
theorem c5_theme_copy_precedes_merge (flags : Flags) (env : Env) (d e td bd : String)
    (h : (siteConfigOf env).theme ≠ "") :
    (Build flags env).trace.head? =
      some (Event.themesCopy ("themes/" ++ (siteConfigOf env).theme)
        (themeConfigGet (siteConfigOf env).themeConfig (siteConfigOf env).theme)) ∧
    (env.themesCopy ("themes/" ++ (siteConfigOf env).theme)
        (themeConfigGet (siteConfigOf env).themeConfig (siteConfigOf env).theme) =
          .ok (d, some e) →
      (Build flags env).outcome = .fatalExit e ∧
      Event.themesMerge td bd ∉ (Build flags env).trace) := by
  simp only [Build_trace, Build_fatal_iff]
  simp only [siteConfigOf] at *
  simp only [buildInner, stageTheme, Ctx.finish]
  repeat' split
  all_goals try simp_all
  all_goals obtain ⟨t, ht⟩ := stagePrepare_trace _
  all_goals rw [ht]
  all_goals simp_all

/-- Witness for `c5_theme_copy_precedes_merge`: with theme `mytheme`, the run
opens with the copy of `themes/mytheme` carrying that theme's options; and
when the copy fails, the run is fatal and no merge is recorded. -/
theorem c5_theme_copy_precedes_merge_witness :
    (siteConfigOf envThemeOk).theme ≠ "" ∧
    (Build flags0 envThemeOk).trace.head? =
      some (Event.themesCopy "themes/mytheme" ⟨[("k", "v")]⟩) ∧
    (Build flags0 envThemeCopyFails).outcome = .fatalExit "copy failed" ∧
    Event.themesMerge "" "public" ∉ (Build flags0 envThemeCopyFails).trace :=
  ⟨by decide,
   (c5_theme_copy_precedes_merge flags0 envThemeOk "x" "x" "x" "x" (by decide)).1,
   ((c5_theme_copy_precedes_merge flags0 envThemeCopyFails "" "copy failed" "" "public"
     (by decide)).2 rfl).1,
   ((c5_theme_copy_precedes_merge flags0 envThemeCopyFails "" "copy failed" "" "public"
     (by decide)).2 rfl).2⟩

/-- C7: a cleanup error is fatal even though the build artifact is complete:
whenever a recorded `build.ThemesClean` or `build.EjectClean` invocation
returns an error, the run ends as `log.Fatal` with that error, and the
`build.Gopack` bundling of the output had already run by then. -/
theorem c7_cleanup_failure_fatal (flags : Flags) (env : Env) (td ep e1 e2 : String)
    (fs : List String) :
    (Event.themesClean td ∈ (Build flags env).trace →
      env.themesClean td = .ok (some e1) →
      (Build flags env).outcome = .fatalExit e1 ∧
      (Build flags env).trace.any Event.isGopack = true) ∧
    (Event.ejectClean fs ep ∈ (Build flags env).trace →
      env.ejectClean fs ep = .ok (some e2) →
      (Build flags env).outcome = .fatalExit e2 ∧
      (Build flags env).trace.any Event.isGopack = true) := by
  simp only [Build_trace, Build_fatal_iff]
  simp only [buildInner, siteConfigOf, stageTheme, stagePrepare, stageMkdir, stageNpm,
    stageEject, stageAssets, stageStrategy, stageGopack, stageCleanup, CheckErr, Ctx.finish]
  repeat' split
  all_goals simp_all [Event.isGopack]

/-- Witness for `c7_cleanup_failure_fatal`: a failing scaffold cleanup after a
successful no-theme build turns the whole run fatal although Gopack already
ran. -/
theorem c7_cleanup_failure_fatal_witness :
    Event.ejectClean ["ejected/plenti.js"] "ejected" ∈ (Build flags0 envEjectCleanFails).trace ∧
    envEjectCleanFails.ejectClean ["ejected/plenti.js"] "ejected" = .ok (some "unlink failed") ∧
    (Build flags0 envEjectCleanFails).outcome = .fatalExit "unlink failed" ∧
    (Build flags0 envEjectCleanFails).trace.any Event.isGopack = true :=
  ⟨by decide, rfl,
   ((c7_cleanup_failure_fatal flags0 envEjectCleanFails "x" "ejected" "x" "unlink failed"
      ["ejected/plenti.js"]).2 (by decide) rfl).1,
   ((c7_cleanup_failure_fatal flags0 envEjectCleanFails "x" "ejected" "x" "unlink failed"
      ["ejected/plenti.js"]).2 (by decide) rfl).2⟩

/-- The guarded body never reports the guard's own outcome: `recovered` only
arises from the guard in `Build`. -/
theorem buildInner_not_recovered (flags : Flags) (env : Env) (m : String) :
    (buildInner flags env).outcome ≠ .recovered m := by
  simp only [buildInner, siteConfigOf, stageTheme, stagePrepare, stageMkdir, stageNpm,
    stageEject, stageAssets, stageStrategy, stageGopack, stageCleanup, CheckErr, Ctx.finish]
  repeat' split
  all_goals simp

/-- A run of `Build` ends `recovered` exactly when the guarded body panicked. -/
theorem Build_recovered_iff (flags : Flags) (env : Env) (m : String) :
    ((Build flags env).outcome = .recovered m ↔ (buildInner flags env).outcome = .panicked m) := by
  simp only [Build]
  split <;> simp_all [buildInner_not_recovered]

/-- C6: both scaffold-ejection steps complete before asset staging and before
either build strategy: whenever an `AssetsCopy` or any strategy invocation is
recorded, both an `EjectTemp` and an `EjectCopy` invocation appear strictly
before it; a panic in `build.EjectTemp` ends the run (recovered by the guard)
with no asset staging and no strategy invocation; and an error from
`build.EjectCopy` is `log.Fatal`, again with no asset staging and no strategy
invocation. -/
theorem c6_eject_before_staging (flags : Flags) (env : Env) (td m bp1 td1 ep1 e : String) :
    ((Build flags env).trace.any Event.isAssetsCopy = true →
      (tracePrior (Build flags env).trace Event.isAssetsCopy).any Event.isEjectTemp = true ∧
      (tracePrior (Build flags env).trace Event.isAssetsCopy).any Event.isEjectCopy = true) ∧
    ((Build flags env).trace.any Event.isStrategy = true →
      (tracePrior (Build flags env).trace Event.isStrategy).any Event.isEjectTemp = true ∧
      (tracePrior (Build flags env).trace Event.isStrategy).any Event.isEjectCopy = true) ∧
    (Event.ejectTemp td ∈ (Build flags env).trace → env.ejectTemp td = .panic m →
      (Build flags env).outcome = .recovered m ∧
      (Build flags env).trace.any Event.isAssetsCopy = false ∧
      (Build flags env).trace.any Event.isStrategy = false) ∧
    (Event.ejectCopy bp1 td1 ep1 ∈ (Build flags env).trace →
      env.ejectCopy bp1 td1 ep1 = .ok (some e) →
      (Build flags env).outcome = .fatalExit e ∧
      (Build flags env).trace.any Event.isAssetsCopy = false ∧
      (Build flags env).trace.any Event.isStrategy = false) := by
  simp only [Build_trace, Build_fatal_iff, Build_recovered_iff]
  simp only [buildInner, siteConfigOf, stageTheme, stagePrepare, stageMkdir, stageNpm,
    stageEject, stageAssets, stageStrategy, stageGopack, stageCleanup, CheckErr, Ctx.finish]
  repeat' split
  all_goals simp_all [tracePrior, Event.isAssetsCopy, Event.isStrategy, Event.isNativeStrategy,
    Event.isNodeStrategy, Event.isEjectTemp, Event.isEjectCopy, List.takeWhile]

/-- Witness for `c6_eject_before_staging`: in a successful native run both
ejection steps precede asset staging; and a failing `EjectCopy` makes the run
fatal with no asset staging recorded. -/
theorem c6_eject_before_staging_witness :
    (Build flags0 envBase).trace.any Event.isAssetsCopy = true ∧
    (tracePrior (Build flags0 envBase).trace Event.isAssetsCopy).any Event.isEjectTemp = true ∧
    (tracePrior (Build flags0 envBase).trace Event.isAssetsCopy).any Event.isEjectCopy = true ∧
    (Build flags0 envEjectCopyFails).outcome = .fatalExit "eject copy failed" ∧
    (Build flags0 envEjectCopyFails).trace.any Event.isAssetsCopy = false :=
  ⟨by decide,
   ((c6_eject_before_staging flags0 envBase "x" "x" "x" "x" "x" "x").1 (by decide)).1,
   ((c6_eject_before_staging flags0 envBase "x" "x" "x" "x" "x" "x").1 (by decide)).2,
   ((c6_eject_before_staging flags0 envEjectCopyFails "x" "x" "public" "" "ejected"
      "eject copy failed").2.2.2 (by decide) rfl).1,
   ((c6_eject_before_staging flags0 envEjectCopyFails "x" "x" "public" "" "ejected"
      "eject copy failed").2.2.2 (by decide) rfl).2.1⟩

/-- A successful `build.ThemesCopy` in the all-success fixture returns the
non-empty workspace `tmp_theme`. -/
theorem envThemeOk_fresh : themesCopyFresh envThemeOk := by
  intro p o d hd
  have h1 : d = "tmp_theme" := by
    simp only [envThemeOk, envBase] at hd
    injection hd with h2
    injection h2 with h3 h4
    exact h3.symm
  rw [h1]
  decide

/-- C1 (counterexample to the claim as stated): in a run whose theme copy
fails, the run ends by `log.Fatal` with the workspace path still empty while a
theme is configured, and neither cleanup branch runs — refuting, for that run,
both the `tempBuildDir`-iff and the "never neither cleanup" parts of the
claim. -/
theorem c1_counterexample :
    ¬((((Build flags0 envThemeCopyFails).tempBuildDir = "" ↔
        (Build flags0 envThemeCopyFails).theme = "") ∧
      (ranThemesClean (Build flags0 envThemeCopyFails) = true ∨
        ranEjectClean (Build flags0 envThemeCopyFails) = true))) := by
  decide

/-- C1 (amended): in every run neither cleanup branch runs twice — the two
never both appear; and in every run that completes the pipeline, the
temporary workspace path is empty iff no theme is configured (granting that a
successful theme copy yields a non-empty fresh workspace), exactly one cleanup
branch ran, and it was the theme-workspace deletion precisely when the
workspace path is non-empty. -/
theorem c1_cleanup_flag (flags : Flags) (env : Env) (hwf : themesCopyFresh env) :
    (¬(ranThemesClean (Build flags env) = true ∧ ranEjectClean (Build flags env) = true)) ∧
    ((Build flags env).outcome = .completed →
      ((Build flags env).tempBuildDir = "" ↔ (Build flags env).theme = "") ∧
      (ranThemesClean (Build flags env) = true ∨ ranEjectClean (Build flags env) = true) ∧
      (ranThemesClean (Build flags env) = true ↔ (Build flags env).tempBuildDir ≠ "")) := by
  simp only [ranThemesClean, ranEjectClean, Build_trace, Build_completed_iff,
    Build_tempBuildDir, Build_theme]
  simp only [buildInner, siteConfigOf, stageTheme, stagePrepare, stageMkdir, stageNpm,
    stageEject, stageAssets, stageStrategy, stageGopack, stageCleanup, CheckErr, Ctx.finish]
  repeat' split
  all_goals simp_all [Event.isThemesClean, Event.isEjectClean]
  all_goals exact absurd rfl (hwf _ _ _ (by assumption))

/-- Witness for `c1_cleanup_flag`: a completed themed run deletes the theme
workspace and never the scaffold files, with a non-empty workspace path. -/
theorem c1_cleanup_flag_witness :
    themesCopyFresh envThemeOk ∧
    (Build flags0 envThemeOk).outcome = .completed ∧
    ¬(ranThemesClean (Build flags0 envThemeOk) = true ∧
      ranEjectClean (Build flags0 envThemeOk) = true) ∧
    (ranThemesClean (Build flags0 envThemeOk) = true ↔
      (Build flags0 envThemeOk).tempBuildDir ≠ "") :=
  ⟨envThemeOk_fresh, by decide,
   (c1_cleanup_flag flags0 envThemeOk envThemeOk_fresh).1,
   ((c1_cleanup_flag flags0 envThemeOk envThemeOk_fresh).2 (by decide)).2.2⟩

end Plenti
